import Mathlib

set_option autoImplicit false

namespace Bittensor

/-! Shallow embedding of the rate-limiting, caching, error-tracking and
polling-loop utilities from `plugins/bittensor/examples`.  Wall-clock time
(Python `time.time()`, a real-valued clock) is modelled as an integer passed
explicitly to each operation — the code only ever adds, subtracts and compares
timestamps, so any ordered abelian group of durations models it and `Int`
keeps every statement decidable; `time.sleep(d)` is modelled by reporting
the slept duration `d` alongside the new state, with the post-sleep clock
taken to be `now + d`. -/

/-- `isSubchain pat l` models Python's substring test `pat in l` on strings
viewed as lists of characters: `pat` occurs contiguously inside `l`. -/
def isSubchain (pat : List Char) : List Char → Bool
  | [] => pat.isEmpty
  | c :: rest => pat.isPrefixOf (c :: rest) || isSubchain pat rest

/-- Python's `str.lower()` restricted to the ASCII range, as `Char.toLower`. -/
def lowerChars (s : String) : List Char :=
  s.toList.map Char.toLower

/-- `RateLimiter._is_rate_limit_error` (rate_limiting.py lines 70-74):
the stringified error, lowercased, contains `"429"` or `"rate limit"`. -/
def isRateLimitError (error : String) : Bool :=
  let error_str := lowerChars error
  isSubchain "429".toList error_str || isSubchain "rate limit".toList error_str

/-- State of `RateLimiter` (rate_limiting.py lines 5-24).  The integer
configuration fields keep their Python types (`int`); `last_request` holds a
clock reading. -/
structure RateLimiter where
  name : String
  window_seconds : Int
  max_requests : Int
  buffer : Int
  min_sleep : Nat
  max_sleep : Nat
  last_request : Int
  requests_count : Nat
  deriving Repr, DecidableEq

/-- `RateLimiter.__init__` with the source's defaults
`buffer=1, min_sleep=60, max_sleep=900`; `_last_request = 0`,
`_requests_count = 0`. -/
def RateLimiter.init (name : String) (window_seconds : Int) (max_requests : Int)
    (buffer : Int) (min_sleep : Nat) (max_sleep : Nat) : RateLimiter :=
  ⟨name, window_seconds, max_requests, buffer, min_sleep, max_sleep, 0, 0⟩

/-- First block of `RateLimiter.wait` (lines 30-34): reset the counter if the
window has passed (`current_time - self._last_request > self.window_seconds`). -/
def RateLimiter.resetIfWindowPassed (rl : RateLimiter) (now : Int) : RateLimiter :=
  if now - rl.last_request > rl.window_seconds then
    { rl with requests_count := 0, last_request := now }
  else rl

/-- `RateLimiter.wait` (rate_limiting.py lines 26-49).  Returns the new state
together with the duration slept (0 when the call did not block).  After a
blocking sleep the source re-reads the clock (`self._last_request =
time.time()`), modelled as `now + wait_time`. -/
def RateLimiter.wait (rl : RateLimiter) (now : Int) : RateLimiter × Int :=
  let rl1 := rl.resetIfWindowPassed now
  let step :=
    if (rl1.requests_count : Int) ≥ rl1.max_requests - rl1.buffer then
      let wait_time := rl1.window_seconds - (now - rl1.last_request)
      if wait_time > 0 then
        ({ rl1 with requests_count := 0, last_request := now + wait_time }, wait_time)
      else (rl1, 0)
    else (rl1, 0)
  ({ step.1 with requests_count := step.1.requests_count + 1 }, step.2)

/-- A sequence of `wait()` calls at the given clock readings; returns the final
state and the list of slept durations, one per call. -/
def RateLimiter.waitRun (rl : RateLimiter) : List Int → RateLimiter × List Int
  | [] => (rl, [])
  | t :: ts =>
    let first := rl.wait t
    let rest := first.1.waitRun ts
    (rest.1, first.2 :: rest.2)

/-- `noBoundaryRun rl ts` says that no call of the run `ts` happens at an
elapsed time since the current window start exactly equal to
`window_seconds` — the boundary on which `wait()` neither resets nor
blocks. -/
def RateLimiter.noBoundaryRun (rl : RateLimiter) : List Int → Bool
  | [] => true
  | t :: ts => (t - rl.last_request != rl.window_seconds) && (rl.wait t).1.noBoundaryRun ts

/-- `RateLimiter.handle_rate_limit` (rate_limiting.py lines 51-68).  Returns
the boolean result, the slept duration in seconds (0 on the `False` paths),
and the state of the limiter after the call. -/
def RateLimiter.handleRateLimit (rl : RateLimiter) (attempt max_retries : Nat)
    (error : Option String) : Bool × Nat × RateLimiter :=
  if attempt ≥ max_retries - 1 then (false, 0, rl)
  else if error.any (fun e => !isRateLimitError e) then (false, 0, rl)
  else
    let base_wait : Nat := if error.isSome then 180 else rl.min_sleep
    let wait_time := min (base_wait * 2 ^ attempt) rl.max_sleep
    (true, wait_time, rl)

/-- The behaviour the specification ascribes to `handle_rate_limit`, written
from the spec's words: `false` with no sleep when `attempt >= max_retries - 1`
(integer arithmetic) or the supplied error is not rate-limit-shaped, else
`true` after sleeping `min(base_wait * 2^attempt, max_sleep)` with `base_wait
= 180` when an error was supplied and `min_sleep` otherwise. -/
def handleRateLimitSpec (rl : RateLimiter) (attempt max_retries : Nat)
    (error : Option String) : Bool × Nat :=
  if decide ((attempt : Int) ≥ (max_retries : Int) - 1)
      || (match error with
          | some e => !isRateLimitError e
          | none => false) then
    (false, 0)
  else
    (true, min ((if error.isSome then 180 else rl.min_sleep) * 2 ^ attempt) rl.max_sleep)

/-! ### cache.py -/

/-- `CacheEntry` (cache.py lines 8-11). -/
structure CacheEntry (α : Type) where
  data : α
  timestamp : Int
  deriving Repr, DecidableEq

/-- State of `Cache` (cache.py lines 13-26).  The Python dict is modelled as
an association list with unique keys (looked up by first match); Python dict
assignment is modelled by removing the key and prepending the new pair. -/
structure Cache (α : Type) where
  cache : List (String × CacheEntry α)
  expiry_seconds : Int
  cleanup_interval : Int
  last_cleanup : Int
  deriving Repr, DecidableEq

/-- `Cache.__init__` (cache.py lines 16-26): empty store,
`_last_cleanup = time.time()`. -/
def Cache.init (α : Type) (expiry_seconds cleanup_interval now : Int) : Cache α :=
  ⟨[], expiry_seconds, cleanup_interval, now⟩

/-- Removal of a key from the association list, modelling both
`del self._cache[key]` and the overwrite part of dict assignment. -/
def eraseKey {β : Type} (key : String) (l : List (String × β)) : List (String × β) :=
  l.filter (fun p => p.1 != key)

/-- `Cache._should_cleanup` (cache.py lines 68-69). -/
def Cache.shouldCleanup {α : Type} (c : Cache α) (now : Int) : Bool :=
  now - c.last_cleanup > c.cleanup_interval

/-- `Cache._is_expired` (cache.py lines 71-72). -/
def Cache.isExpired {α : Type} (c : Cache α) (timestamp now : Int) : Bool :=
  now - timestamp > c.expiry_seconds

/-- `Cache._cleanup` (cache.py lines 74-91): drop every expired entry, update
`_last_cleanup`.  (The `try/except` around the body cannot fire in the model:
the body is total.) -/
def Cache.cleanup {α : Type} (c : Cache α) (now : Int) : Cache α :=
  { c with
      cache := c.cache.filter (fun p => !c.isExpired p.2.timestamp now)
      last_cleanup := now }

/-- The `if self._cache and self._should_cleanup(): self._cleanup()` prelude
of `get` (lines 33-34) and `get_many` (lines 48-49). -/
def Cache.maybeCleanup {α : Type} (c : Cache α) (now : Int) : Cache α :=
  if !c.cache.isEmpty && c.shouldCleanup now then c.cleanup now else c

/-- `Cache.get` (cache.py lines 28-44): empty keys short-circuit to `None`;
otherwise an optional sweep, then lookup; an expired hit is deleted and
reported absent. -/
def Cache.get {α : Type} (c : Cache α) (key : String) (now : Int) :
    Option α × Cache α :=
  if key = "" then (none, c)
  else
    let c1 := c.maybeCleanup now
    match c1.cache.lookup key with
    | none => (none, c1)
    | some entry =>
      if c1.isExpired entry.timestamp now then
        (none, { c1 with cache := eraseKey key c1.cache })
      else (some entry.data, c1)

/-- The per-key loop of `Cache.get_many` (cache.py lines 51-60): missing or
expired keys report `None`, expired hits are deleted as a side effect. -/
def getManyAux {α : Type} (now : Int) :
    Cache α → List String → List (String × Option α) × Cache α
  | c, [] => ([], c)
  | c, key :: keys =>
    match c.cache.lookup key with
    | none =>
      let rest := getManyAux now c keys
      ((key, none) :: rest.1, rest.2)
    | some entry =>
      if c.isExpired entry.timestamp now then
        let rest := getManyAux now { c with cache := eraseKey key c.cache } keys
        ((key, none) :: rest.1, rest.2)
      else
        let rest := getManyAux now c keys
        ((key, some entry.data) :: rest.1, rest.2)

/-- `Cache.get_many` (cache.py lines 46-60): one optional sweep for the whole
batch, then the per-key loop. -/
def Cache.getMany {α : Type} (c : Cache α) (keys : List String) (now : Int) :
    List (String × Option α) × Cache α :=
  getManyAux now (c.maybeCleanup now) keys

/-- `Cache.set` (cache.py lines 62-66): no-op on the empty key, otherwise an
unconditional overwrite with a fresh timestamp. -/
def Cache.set {α : Type} (c : Cache α) (key : String) (value : α) (now : Int) :
    Cache α :=
  if key = "" then c
  else { c with cache := (key, ⟨value, now⟩) :: eraseKey key c.cache }

/-! ### logging.py (ErrorTracker) -/

/-- State of `ErrorTracker` (logging.py lines 48-55). -/
structure ErrorTracker where
  error_counts : List (String × Nat)
  last_reset : Int
  reset_interval : Int
  alert_threshold : Nat
  deriving Repr, DecidableEq

/-- `ErrorTracker.__init__` (logging.py lines 51-55): empty counts,
`_last_reset = time.time()`. -/
def ErrorTracker.init (now reset_interval : Int) (alert_threshold : Nat) :
    ErrorTracker :=
  ⟨[], now, reset_interval, alert_threshold⟩

/-- Python's `self._error_counts.get(error_type, 0)`. -/
def countOf (l : List (String × Nat)) (k : String) : Nat :=
  (l.lookup k).getD 0

/-- Dict assignment `self._error_counts[error_type] = n`. -/
def setCount (l : List (String × Nat)) (k : String) (n : Nat) :
    List (String × Nat) :=
  (k, n) :: eraseKey k l

/-- `ErrorTracker._check_reset` (logging.py lines 64-69). -/
def ErrorTracker.checkReset (et : ErrorTracker) (now : Int) : ErrorTracker :=
  if now - et.last_reset > et.reset_interval then
    { et with error_counts := [], last_reset := now }
  else et

/-- `ErrorTracker._increment_count` (logging.py lines 71-78).  The boolean
reports whether the elevated-rate warning was emitted
(`count > alert_threshold` after the increment). -/
def ErrorTracker.incrementCount (et : ErrorTracker) (error_type : String) :
    ErrorTracker × Bool :=
  let n := countOf et.error_counts error_type + 1
  ({ et with error_counts := setCount et.error_counts error_type n },
    decide (n > et.alert_threshold))

/-- `ErrorTracker.track` (logging.py lines 57-62): reset check, then
increment; `_log_error` only logs and is dropped from the state model. -/
def ErrorTracker.track (et : ErrorTracker) (error_type : String) (now : Int) :
    ErrorTracker × Bool :=
  (et.checkReset now).incrementCount error_type

/-- A sequence of `track` calls for one error kind at the given clock
readings, collecting the elevated-rate warning flags. -/
def ErrorTracker.trackRun (et : ErrorTracker) (error_type : String) :
    List Int → ErrorTracker × List Bool
  | [] => (et, [])
  | t :: ts =>
    let first := et.track error_type t
    let rest := first.1.trackRun error_type ts
    (rest.1, first.2 :: rest.2)

/-! ### bittensor_agent.py / bittensor_worker.py (polling loop backoff) -/

/-- bittensor_agent.py line 161: on any exception escaping one mention-check
cycle the polling loop sleeps a fixed 300 seconds before retrying. -/
def errorCooldown : Nat := 300

/-- The retry loop of `BittensorImageWorker._get_tweet_data`
(bittensor_worker.py lines 75-97), with the Twitter client as a per-attempt
response oracle: `.ok v` is a successful `get_tweet`, `.error e` an exception
stringifying to `e`.  Result `.error` models the `RuntimeError` raised when
the rate limit persists on the last attempt, `.ok none` the `return None`
taken on a non-429 error (and the implicit `None` if the loop exhausts);
alongside it the total seconds slept.  The fuel argument counts the
remaining iterations of `range(max_retries)`. -/
def getTweetDataLoop (α : Type) (resp : Nat → Except String α)
    (max_retries base_wait_time : Nat) : Nat → Nat → Except String (Option α) × Nat
  | _, 0 => (Except.ok none, 0)
  | attempt, fuel + 1 =>
    match resp attempt with
    | Except.ok v => (Except.ok (some v), 0)
    | Except.error e =>
      if isSubchain "429".toList e.toList then
        let wait_time := base_wait_time * (attempt + 1)
        if attempt = max_retries - 1 then (Except.error "Rate limit persisted", wait_time)
        else
          let rest := getTweetDataLoop α resp max_retries base_wait_time (attempt + 1) fuel
          (rest.1, wait_time + rest.2)
      else (Except.ok none, 0)

/-- `_get_tweet_data` with the source's `max_retries = 3` and
`base_wait_time = 60`. -/
def getTweetData (α : Type) (resp : Nat → Except String α) :
    Except String (Option α) × Nat :=
  getTweetDataLoop α resp 3 60 0 3

end Bittensor

namespace Bittensor

/-- A `wait()` call whose clock lies beyond the window: the counter is reset,
and (provided the threshold `max_requests - buffer` is positive) no block
occurs; the call returns with count 1 and window start `now`. -/
theorem wait_reset_noblock (rl : RateLimiter) (now : Int)
    (hres : now - rl.last_request > rl.window_seconds)
    (hthr : 0 < rl.max_requests - rl.buffer) :
    rl.wait now = ({ rl with requests_count := 1, last_request := now }, 0) := by
  have h0 : ¬ ((0 : Int) ≥ rl.max_requests - rl.buffer) := by omega
  simp [RateLimiter.wait, RateLimiter.resetIfWindowPassed, hres, h0]

/-- A `wait()` call inside the window with the count still below the
threshold: no reset, no block, the counter just increments. -/
theorem wait_noreset_noblock (rl : RateLimiter) (now : Int)
    (hres : ¬ (now - rl.last_request > rl.window_seconds))
    (hcnt : ¬ ((rl.requests_count : Int) ≥ rl.max_requests - rl.buffer)) :
    rl.wait now = ({ rl with requests_count := rl.requests_count + 1 }, 0) := by
  simp [RateLimiter.wait, RateLimiter.resetIfWindowPassed, hres, hcnt]

/-- A `wait()` call inside the window with the count at or above the
threshold and remaining window time positive: the call blocks for the
remaining time, resets the window and returns with count 1. -/
theorem wait_noreset_block (rl : RateLimiter) (now : Int)
    (hres : ¬ (now - rl.last_request > rl.window_seconds))
    (hcnt : (rl.requests_count : Int) ≥ rl.max_requests - rl.buffer)
    (hpos : rl.window_seconds - (now - rl.last_request) > 0) :
    rl.wait now =
      ({ rl with
          requests_count := 1
          last_request := now + (rl.window_seconds - (now - rl.last_request)) },
        rl.window_seconds - (now - rl.last_request)) := by
  simp [RateLimiter.wait, RateLimiter.resetIfWindowPassed, hres, hcnt, hpos]

/-- C2: for every attempt, max_retries and optional error, `handle_rate_limit`
returns false with no sleep iff `attempt >= max_retries - 1` or the supplied
error is not rate-limit-shaped, and otherwise sleeps
`min(base_wait * 2^attempt, max_sleep)` (base 180 with an error, `min_sleep`
without) and returns true — i.e. it agrees everywhere with the function
written from the spec's words. -/
theorem C2_handle_rate_limit_spec (rl : RateLimiter) (attempt max_retries : Nat)
    (error : Option String) :
    ((rl.handleRateLimit attempt max_retries error).1,
      (rl.handleRateLimit attempt max_retries error).2.1) =
      handleRateLimitSpec rl attempt max_retries error := by
  have hcast : attempt ≥ max_retries - 1 ↔ ((attempt : Int) ≥ (max_retries : Int) - 1) := by
    omega
  unfold RateLimiter.handleRateLimit handleRateLimitSpec
  by_cases h : attempt ≥ max_retries - 1
  · simp [h, hcast.mp h]
  · have h2 : ¬((attempt : Int) ≥ (max_retries : Int) - 1) := fun hh => h (hcast.mpr hh)
    cases error with
    | none => simp [h, h2]
    | some s =>
      by_cases hs : isRateLimitError s
      · simp [h, h2, hs]
      · simp [h, h2, hs]

/-- C9: `handle_rate_limit` leaves the whole `RateLimiter` state — the
fixed-window count, the window-start timestamp and every configuration
field — unchanged. -/
theorem C9_handle_rate_limit_frame (rl : RateLimiter) (attempt max_retries : Nat)
    (error : Option String) :
    (rl.handleRateLimit attempt max_retries error).2.2 = rl := by
  unfold RateLimiter.handleRateLimit
  split
  · rfl
  · split
    · rfl
    · rfl

/-- C1, counterexample: with `attempt = 2`, `max_retries = 3` and a 429-shaped
error, `handle_rate_limit` returns `false` and sleeps 0 seconds (the claim
says it returns `true` and blocks for `min(180 * 2^2, max_sleep)`). -/
theorem C1_counterexample :
    isRateLimitError "429 Too Many Requests" = true ∧
      (RateLimiter.init "twitter" 900 15 1 60 900).handleRateLimit 2 3
          (some "429 Too Many Requests") =
        (false, 0, RateLimiter.init "twitter" 900 15 1 60 900) := by
  constructor
  · rfl
  · rfl

/-- C1, amended: with `attempt = 2`, `max_retries = 3` and a rate-limit-shaped
error, `handle_rate_limit` returns `false` without sleeping (because
`attempt >= max_retries - 1`); raising `max_retries` to 4 yields the claimed
behaviour: `true` after sleeping `min(180 * 2^2, max_sleep)`. -/
theorem C1_amended (rl : RateLimiter) (e : String) (he : isRateLimitError e = true) :
    rl.handleRateLimit 2 3 (some e) = (false, 0, rl) ∧
      rl.handleRateLimit 2 4 (some e) = (true, min (180 * 2 ^ 2) rl.max_sleep, rl) := by
  refine ⟨rfl, ?_⟩
  unfold RateLimiter.handleRateLimit
  simp [he]

/-- Witness for C1_amended at a concrete limiter and the error string
`"HTTP 429"`. -/
theorem C1_amended_witness :
    (RateLimiter.init "twitter" 900 15 1 60 900).handleRateLimit 2 3 (some "HTTP 429") =
        (false, 0, RateLimiter.init "twitter" 900 15 1 60 900) ∧
      (RateLimiter.init "twitter" 900 15 1 60 900).handleRateLimit 2 4 (some "HTTP 429") =
        (true, min (180 * 2 ^ 2) 900, RateLimiter.init "twitter" 900 15 1 60 900) :=
  C1_amended (RateLimiter.init "twitter" 900 15 1 60 900) "HTTP 429" (by rfl)

/-- C3: on a fresh limiter with `max_requests=5, buffer=1, window_seconds=10`,
four `wait()` calls return without blocking; the fifth blocks for the
remaining window time (`window_seconds` minus the elapsed time since the
window start) and returns with the window reset; and a call after the window
has fully elapsed returns immediately with the counter on a fresh window.
The first call is at a clock reading past the (zero-initialised) window
start, as any real first call is; the five calls fall inside one window. -/
theorem C3_wait_scenario (t1 t2 t3 t4 t5 t6 : Int)
    (h1 : 10 < t1) (h12 : t1 ≤ t2) (h23 : t2 ≤ t3) (h34 : t3 ≤ t4) (h45 : t4 ≤ t5)
    (h5 : t5 < t1 + 10) (h6 : t6 - (t1 + 10) > 10) :
    ((RateLimiter.init "twitter" 10 5 1 60 900).waitRun [t1, t2, t3, t4, t5]).2 =
        [0, 0, 0, 0, t1 + 10 - t5] ∧
      0 < t1 + 10 - t5 ∧
      ((RateLimiter.init "twitter" 10 5 1 60 900).waitRun
          [t1, t2, t3, t4, t5]).1.requests_count = 1 ∧
      ((RateLimiter.init "twitter" 10 5 1 60 900).waitRun
          [t1, t2, t3, t4, t5]).1.last_request = t1 + 10 ∧
      (((RateLimiter.init "twitter" 10 5 1 60 900).waitRun
          [t1, t2, t3, t4, t5]).1.wait t6).2 = 0 ∧
      (((RateLimiter.init "twitter" 10 5 1 60 900).waitRun
          [t1, t2, t3, t4, t5]).1.wait t6).1.requests_count = 1 ∧
      (((RateLimiter.init "twitter" 10 5 1 60 900).waitRun
          [t1, t2, t3, t4, t5]).1.wait t6).1.last_request = t6 := by
  have e1 : (RateLimiter.init "twitter" 10 5 1 60 900).wait t1 =
      (⟨"twitter", 10, 5, 1, 60, 900, t1, 1⟩, 0) := by
    rw [wait_reset_noblock _ _ (show t1 - 0 > 10 by linarith)
      (show (0 : Int) < 5 - 1 by decide)]
    rfl
  have e2 : (⟨"twitter", 10, 5, 1, 60, 900, t1, 1⟩ : RateLimiter).wait t2 =
      (⟨"twitter", 10, 5, 1, 60, 900, t1, 2⟩, 0) := by
    rw [wait_noreset_noblock _ _ (show ¬(t2 - t1 > 10) by simp only [not_lt]; linarith)
      (show ¬(((1 : Nat) : Int) ≥ 5 - 1) by decide)]
  have e3 : (⟨"twitter", 10, 5, 1, 60, 900, t1, 2⟩ : RateLimiter).wait t3 =
      (⟨"twitter", 10, 5, 1, 60, 900, t1, 3⟩, 0) := by
    rw [wait_noreset_noblock _ _ (show ¬(t3 - t1 > 10) by simp only [not_lt]; linarith)
      (show ¬(((2 : Nat) : Int) ≥ 5 - 1) by decide)]
  have e4 : (⟨"twitter", 10, 5, 1, 60, 900, t1, 3⟩ : RateLimiter).wait t4 =
      (⟨"twitter", 10, 5, 1, 60, 900, t1, 4⟩, 0) := by
    rw [wait_noreset_noblock _ _ (show ¬(t4 - t1 > 10) by simp only [not_lt]; linarith)
      (show ¬(((3 : Nat) : Int) ≥ 5 - 1) by decide)]
  have e5 : (⟨"twitter", 10, 5, 1, 60, 900, t1, 4⟩ : RateLimiter).wait t5 =
      (⟨"twitter", 10, 5, 1, 60, 900, t1 + 10, 1⟩, t1 + 10 - t5) := by
    rw [wait_noreset_block _ _ (show ¬(t5 - t1 > 10) by simp only [not_lt]; linarith)
      (show (((4 : Nat)) : Int) ≥ 5 - 1 by decide)
      (show (10 : Int) - (t5 - t1) > 0 by linarith)]
    show ((⟨"twitter", 10, 5, 1, 60, 900, t5 + (10 - (t5 - t1)), 1⟩ : RateLimiter),
        (10 : Int) - (t5 - t1)) =
      (⟨"twitter", 10, 5, 1, 60, 900, t1 + 10, 1⟩, t1 + 10 - t5)
    rw [show t5 + ((10 : Int) - (t5 - t1)) = t1 + 10 by ring,
      show (10 : Int) - (t5 - t1) = t1 + 10 - t5 by ring]
  have hA : (RateLimiter.init "twitter" 10 5 1 60 900).waitRun [t1, t2, t3, t4, t5] =
      (⟨"twitter", 10, 5, 1, 60, 900, t1 + 10, 1⟩, [0, 0, 0, 0, t1 + 10 - t5]) := by
    simp only [RateLimiter.waitRun, e1, e2, e3, e4, e5]
  have e6 : (⟨"twitter", 10, 5, 1, 60, 900, t1 + 10, 1⟩ : RateLimiter).wait t6 =
      (⟨"twitter", 10, 5, 1, 60, 900, t6, 1⟩, 0) := by
    rw [wait_reset_noblock _ _ (show t6 - (t1 + 10) > 10 from h6)
      (show (0 : Int) < 5 - 1 by decide)]
  rw [hA]
  refine ⟨rfl, by linarith, rfl, rfl, ?_, ?_, ?_⟩ <;> rw [e6]

/-- Witness for C3 at the concrete call times 11, 12, 13, 14, 15 and a
post-window call at time 100. -/
theorem C3_wait_scenario_witness :
    ((RateLimiter.init "twitter" 10 5 1 60 900).waitRun [11, 12, 13, 14, 15]).2 =
        [0, 0, 0, 0, 11 + 10 - 15] ∧
      (0 : Int) < 11 + 10 - 15 ∧
      ((RateLimiter.init "twitter" 10 5 1 60 900).waitRun
          [11, 12, 13, 14, 15]).1.requests_count = 1 ∧
      ((RateLimiter.init "twitter" 10 5 1 60 900).waitRun
          [11, 12, 13, 14, 15]).1.last_request = 11 + 10 ∧
      (((RateLimiter.init "twitter" 10 5 1 60 900).waitRun
          [11, 12, 13, 14, 15]).1.wait 100).2 = 0 ∧
      (((RateLimiter.init "twitter" 10 5 1 60 900).waitRun
          [11, 12, 13, 14, 15]).1.wait 100).1.requests_count = 1 ∧
      (((RateLimiter.init "twitter" 10 5 1 60 900).waitRun
          [11, 12, 13, 14, 15]).1.wait 100).1.last_request = 100 :=
  C3_wait_scenario 11 12 13 14 15 100 (by decide) (by decide) (by decide) (by decide)
    (by decide) (by decide) (by decide)

/-- `wait()` never changes the configuration fields of the limiter. -/
theorem wait_config (rl : RateLimiter) (now : Int) :
    (rl.wait now).1.window_seconds = rl.window_seconds ∧
      (rl.wait now).1.max_requests = rl.max_requests ∧
      (rl.wait now).1.buffer = rl.buffer := by
  simp only [RateLimiter.wait, RateLimiter.resetIfWindowPassed]
  split_ifs <;> simp

/-- A `wait()` call whose clock lies beyond the window, with a non-positive
threshold `max_requests - buffer` and a positive window: the reset is
followed by a block for the whole window. -/
theorem wait_reset_block (rl : RateLimiter) (now : Int)
    (hres : now - rl.last_request > rl.window_seconds)
    (hthr : (0 : Int) ≥ rl.max_requests - rl.buffer)
    (hw : 0 < rl.window_seconds) :
    rl.wait now =
      ({ rl with requests_count := 1, last_request := now + rl.window_seconds },
        rl.window_seconds) := by
  simp [RateLimiter.wait, RateLimiter.resetIfWindowPassed, hres, hthr, hw, sub_self]

/-- One `wait()` call away from the window boundary keeps the request count
at most `max(max_requests - buffer, 1)`. -/
theorem wait_count_invariant (rl : RateLimiter) (now : Int)
    (hw : 0 < rl.window_seconds)
    (hnb : now - rl.last_request ≠ rl.window_seconds) :
    ((rl.wait now).1.requests_count : Int) ≤ max (rl.max_requests - rl.buffer) 1 := by
  by_cases hres : now - rl.last_request > rl.window_seconds
  · by_cases hthr : (0 : Int) ≥ rl.max_requests - rl.buffer
    · rw [wait_reset_block rl now hres hthr hw]
      show ((1 : Nat) : Int) ≤ max (rl.max_requests - rl.buffer) 1
      push_cast
      exact le_max_right _ _
    · rw [wait_reset_noblock rl now hres (by omega)]
      show ((1 : Nat) : Int) ≤ max (rl.max_requests - rl.buffer) 1
      push_cast
      exact le_max_right _ _
  · by_cases hcnt : (rl.requests_count : Int) ≥ rl.max_requests - rl.buffer
    · rw [wait_noreset_block rl now hres hcnt (by omega)]
      show ((1 : Nat) : Int) ≤ max (rl.max_requests - rl.buffer) 1
      push_cast
      exact le_max_right _ _
    · rw [wait_noreset_noblock rl now hres hcnt]
      show ((rl.requests_count + 1 : Nat) : Int) ≤ max (rl.max_requests - rl.buffer) 1
      have h1 : ((rl.requests_count + 1 : Nat) : Int) ≤ rl.max_requests - rl.buffer := by
        push_cast
        omega
      exact le_trans h1 (le_max_left _ _)

/-- Along any run of `wait()` calls that avoids the window boundary, the
request count stays at most `max(max_requests - buffer, 1)`. -/
theorem waitRun_count_invariant (ts : List Int) : ∀ (rl : RateLimiter),
    0 < rl.window_seconds → rl.noBoundaryRun ts = true →
    (rl.requests_count : Int) ≤ max (rl.max_requests - rl.buffer) 1 →
    (((rl.waitRun ts).1.requests_count : Int) ≤ max (rl.max_requests - rl.buffer) 1) := by
  induction ts with
  | nil => intro rl _ _ hJ; exact hJ
  | cons t ts ih =>
    intro rl hw hnb hJ
    have hnb' : (t - rl.last_request != rl.window_seconds) = true ∧
        (rl.wait t).1.noBoundaryRun ts = true := by
      simpa [RateLimiter.noBoundaryRun, Bool.and_eq_true] using hnb
    have hnb1 : t - rl.last_request ≠ rl.window_seconds := by
      simpa using hnb'.1
    have hstep := wait_count_invariant rl t hw hnb1
    have hcfg := wait_config rl t
    have IH := ih (rl.wait t).1 (hcfg.1 ▸ hw) hnb'.2
      (by rw [hcfg.2.1, hcfg.2.2]; exact hstep)
    rw [hcfg.2.1, hcfg.2.2] at IH
    simpa [RateLimiter.waitRun] using IH

/-- C4, amended: along every run of `wait()` calls from a fresh counter in
which no call occurs at an elapsed time exactly equal to `window_seconds`
(with `buffer ≥ 0`, `max_requests ≥ 1`, `window_seconds > 0`), the request
count in the window never exceeds `max_requests` — the blocking waits keep it
within the bound; and whenever the elapsed time since the window start
exceeds `window_seconds`, the reset step sets the count to 0 and the window
start to the current time.  (As stated the claim fails: a call made exactly
at the window boundary neither resets nor blocks and lets the count grow past
`max_requests` with no blocking wait, see the counterexample.) -/
theorem C4_amended (rl : RateLimiter) (ts : List Int) (t : Int)
    (hw : 0 < rl.window_seconds) (hb : 0 ≤ rl.buffer) (hm : 1 ≤ rl.max_requests)
    (hc : rl.requests_count = 0)
    (hnb : rl.noBoundaryRun ts = true)
    (hel : t - (rl.waitRun ts).1.last_request > (rl.waitRun ts).1.window_seconds) :
    ((rl.waitRun ts).1.requests_count : Int) ≤ rl.max_requests ∧
      (rl.waitRun ts).1.resetIfWindowPassed t =
        { (rl.waitRun ts).1 with requests_count := 0, last_request := t } := by
  constructor
  · have h := waitRun_count_invariant ts rl hw hnb
      (by rw [hc]; exact le_trans (by omega) (le_max_right _ _))
    exact h.trans (max_le (by omega) (by omega))
  · unfold RateLimiter.resetIfWindowPassed
    rw [if_pos hel]

/-- Witness for C4_amended: the C3 timeline (calls at 11..15, then a reset
check at time 100) on the `max_requests=5, buffer=1, window=10` limiter. -/
theorem C4_amended_witness :
    (((RateLimiter.init "twitter" 10 5 1 60 900).waitRun
          [11, 12, 13, 14, 15]).1.requests_count : Int) ≤
        (RateLimiter.init "twitter" 10 5 1 60 900).max_requests ∧
      ((RateLimiter.init "twitter" 10 5 1 60 900).waitRun
          [11, 12, 13, 14, 15]).1.resetIfWindowPassed 100 =
        { ((RateLimiter.init "twitter" 10 5 1 60 900).waitRun
            [11, 12, 13, 14, 15]).1 with requests_count := 0, last_request := 100 } :=
  C4_amended (RateLimiter.init "twitter" 10 5 1 60 900) [11, 12, 13, 14, 15] 100
    (by decide) (by decide) (by decide) (by decide) (by decide) (by decide)

/-! ### Association-list lemmas for the cache and error-tracker stores -/

theorem lookup_none_of_not_mem_keys {β : Type} {l : List (String × β)} {k : String}
    (h : k ∉ l.map Prod.fst) : l.lookup k = none := by
  induction l with
  | nil => rfl
  | cons p tl ih =>
    obtain ⟨a, b⟩ := p
    simp only [List.map_cons, List.mem_cons, not_or] at h
    simp [List.lookup, beq_eq_false_iff_ne.mpr h.1, ih h.2]

theorem lookup_eraseKey_self {β : Type} (key : String) (l : List (String × β)) :
    (eraseKey key l).lookup key = none := by
  induction l with
  | nil => rfl
  | cons p tl ih =>
    obtain ⟨a, b⟩ := p
    by_cases h : a = key
    · simpa [eraseKey, List.filter_cons, h] using ih
    · simpa [eraseKey, List.filter_cons, h, List.lookup,
        beq_eq_false_iff_ne.mpr (Ne.symm h)] using ih

theorem lookup_eraseKey_ne {β : Type} {k key : String} (h : k ≠ key)
    (l : List (String × β)) : (eraseKey key l).lookup k = l.lookup k := by
  induction l with
  | nil => rfl
  | cons p tl ih =>
    obtain ⟨a, b⟩ := p
    by_cases ha : a = key
    · subst ha
      simpa [eraseKey, List.filter_cons, List.lookup,
        beq_eq_false_iff_ne.mpr h] using ih
    · by_cases hk : k = a
      · subst hk
        simp [eraseKey, List.filter_cons, ha, List.lookup]
      · simpa [eraseKey, List.filter_cons, ha, List.lookup,
          beq_eq_false_iff_ne.mpr hk] using ih

theorem lookup_filter_none {β : Type} {f : String × β → Bool}
    {l : List (String × β)} {k : String} (h : l.lookup k = none) :
    (l.filter f).lookup k = none := by
  induction l with
  | nil => rfl
  | cons p tl ih =>
    obtain ⟨a, b⟩ := p
    by_cases hk : k = a
    · subst hk
      simp [List.lookup] at h
    · have htl : tl.lookup k = none := by
        simpa [List.lookup, beq_eq_false_iff_ne.mpr hk] using h
      by_cases hf : f (a, b)
      · simpa [List.filter_cons, hf, List.lookup,
          beq_eq_false_iff_ne.mpr hk] using ih htl
      · simpa [List.filter_cons, hf] using ih htl

theorem lookup_filter_some {β : Type} {f : String × β → Bool} :
    ∀ {l : List (String × β)}, (l.map Prod.fst).Nodup →
    ∀ {k : String} {v : β}, l.lookup k = some v →
    (l.filter f).lookup k = (if f (k, v) then some v else none) := by
  intro l
  induction l with
  | nil => intro _ k v h; cases h
  | cons p tl ih =>
    intro hnd k v h
    obtain ⟨a, b⟩ := p
    simp only [List.map_cons, List.nodup_cons] at hnd
    by_cases hk : k = a
    · subst hk
      have hb : b = v := by simpa [List.lookup] using h
      subst hb
      by_cases hf : f (k, b)
      · simp [List.filter_cons, hf, List.lookup]
      · have : tl.lookup k = none := lookup_none_of_not_mem_keys hnd.1
        simp [List.filter_cons, hf, lookup_filter_none this]
    · have htl : tl.lookup k = some v := by
        simpa [List.lookup, beq_eq_false_iff_ne.mpr hk] using h
      by_cases hf : f (a, b)
      · simpa [List.filter_cons, hf, List.lookup,
          beq_eq_false_iff_ne.mpr hk] using ih hnd.2 htl
      · simpa [List.filter_cons, hf] using ih hnd.2 htl

/-- C7: on the empty key, `set` stores nothing and `get` reports absent;
neither changes the cache state at all. -/
theorem C7_empty_key_noop (α : Type) (c : Cache α) (v : α) (now : Int) :
    c.set "" v now = c ∧ c.get "" now = (none, c) :=
  ⟨rfl, rfl⟩

/-- C6: for a non-empty key holding entry `e` (keys unique, as Python's dict
guarantees), if the entry's age exceeds `expiry_seconds` then `get` reports
absent and the entry is deleted from the store — whether by the lazy
read-time delete or by the periodic sweep; and whenever `get` does return a
value, it is the data of an entry whose age is at most `expiry_seconds`. -/
theorem C6_get_never_returns_expired (α : Type) (c : Cache α) (key : String)
    (now : Int) (e : CacheEntry α) (v : α)
    (hk : key ≠ "")
    (hnd : (c.cache.map Prod.fst).Nodup)
    (hl : c.cache.lookup key = some e) :
    (now - e.timestamp > c.expiry_seconds →
      (c.get key now).1 = none ∧ (c.get key now).2.cache.lookup key = none) ∧
    ((c.get key now).1 = some v →
      v = e.data ∧ now - e.timestamp ≤ c.expiry_seconds) := by
  by_cases hmc : (!c.cache.isEmpty && c.shouldCleanup now) = true
  · have hclean : c.maybeCleanup now = c.cleanup now := by
      simp [Cache.maybeCleanup, hmc]
    by_cases hexp : now - e.timestamp > c.expiry_seconds
    · have hfl : ((c.cleanup now).cache.lookup key) = none := by
        unfold Cache.cleanup
        rw [lookup_filter_some hnd hl]
        simp [Cache.isExpired, hexp]
      have hg : c.get key now = (none, c.cleanup now) := by
        unfold Cache.get
        rw [if_neg hk, hclean]
        simp only [hfl]
      refine ⟨fun _ => ⟨by rw [hg], by rw [hg]; exact hfl⟩, ?_⟩
      intro hv
      rw [hg] at hv
      cases hv
    · have hfl : ((c.cleanup now).cache.lookup key) = some e := by
        unfold Cache.cleanup
        rw [lookup_filter_some hnd hl]
        simp [Cache.isExpired, hexp]
      have hg : c.get key now = (some e.data, c.cleanup now) := by
        unfold Cache.get
        rw [if_neg hk, hclean]
        have hex : (c.cleanup now).isExpired e.timestamp now = false := by
          simp [Cache.cleanup, Cache.isExpired, hexp]
        simp only [hfl, hex, Bool.false_eq_true, if_false]
      refine ⟨fun h => absurd h hexp, ?_⟩
      intro hv
      rw [hg] at hv
      exact ⟨(Option.some.injEq _ _ ▸ hv).symm, not_lt.mp hexp⟩
  · have hclean : c.maybeCleanup now = c := by
      simp only [Cache.maybeCleanup]
      rw [if_neg hmc]
    by_cases hexp : now - e.timestamp > c.expiry_seconds
    · have hg : c.get key now = (none, { c with cache := eraseKey key c.cache }) := by
        unfold Cache.get
        rw [if_neg hk, hclean]
        have hex : c.isExpired e.timestamp now = true := by
          simp [Cache.isExpired, hexp]
        simp only [hl, hex, if_true]
      refine ⟨fun _ => ⟨by rw [hg], by rw [hg]; exact lookup_eraseKey_self key c.cache⟩, ?_⟩
      intro hv
      rw [hg] at hv
      cases hv
    · have hg : c.get key now = (some e.data, c) := by
        unfold Cache.get
        rw [if_neg hk, hclean]
        have hex : c.isExpired e.timestamp now = false := by
          simp [Cache.isExpired, hexp]
        simp only [hl, hex, Bool.false_eq_true, if_false]
      refine ⟨fun h => absurd h hexp, ?_⟩
      intro hv
      rw [hg] at hv
      exact ⟨(Option.some.injEq _ _ ▸ hv).symm, not_lt.mp hexp⟩

/-- Witness for C6: a cache built by `set("k", 42)` at time 0 with
`expiry_seconds = 3600`, read back at time 3700 (> ttl). -/
theorem C6_witness :
    (3700 - (⟨42, 0⟩ : CacheEntry Nat).timestamp >
          ((Cache.init Nat 3600 300 0).set "k" 42 0).expiry_seconds →
        (((Cache.init Nat 3600 300 0).set "k" 42 0).get "k" 3700).1 = none ∧
        (((Cache.init Nat 3600 300 0).set "k" 42 0).get "k" 3700).2.cache.lookup "k" =
          none) ∧
    ((((Cache.init Nat 3600 300 0).set "k" 42 0).get "k" 3700).1 = some 42 →
      (42 : Nat) = (⟨42, 0⟩ : CacheEntry Nat).data ∧
        3700 - (⟨42, 0⟩ : CacheEntry Nat).timestamp ≤
          ((Cache.init Nat 3600 300 0).set "k" 42 0).expiry_seconds) :=
  C6_get_never_returns_expired Nat ((Cache.init Nat 3600 300 0).set "k" 42 0) "k"
    3700 ⟨42, 0⟩ 42 (by decide) (by decide) (by decide)

/-- The optional sweep of `get`/`get_many` never touches a non-expired entry
and never changes the configured expiry. -/
theorem maybeCleanup_preserves {α : Type} (c : Cache α) (now : Int) (k : String)
    (e : CacheEntry α)
    (hnd : (c.cache.map Prod.fst).Nodup)
    (hl : c.cache.lookup k = some e)
    (hfresh : now - e.timestamp ≤ c.expiry_seconds) :
    (c.maybeCleanup now).cache.lookup k = some e ∧
      (c.maybeCleanup now).expiry_seconds = c.expiry_seconds := by
  unfold Cache.maybeCleanup
  split
  · refine ⟨?_, rfl⟩
    unfold Cache.cleanup
    rw [lookup_filter_some hnd hl]
    simp [Cache.isExpired, not_lt.mpr hfresh]
  · exact ⟨hl, rfl⟩

/-- The per-key loop of `get_many` deletes only keys it finds expired, so a
non-expired entry survives any batch; the expiry setting is untouched. -/
theorem getManyAux_preserves {α : Type} (now : Int) (k : String) (e : CacheEntry α)
    (ks : List String) : ∀ (c : Cache α),
    c.cache.lookup k = some e → now - e.timestamp ≤ c.expiry_seconds →
    (getManyAux now c ks).2.cache.lookup k = some e ∧
      (getManyAux now c ks).2.expiry_seconds = c.expiry_seconds := by
  induction ks with
  | nil => intro c h1 _; exact ⟨h1, rfl⟩
  | cons key ks ih =>
    intro c h1 h2
    cases hkey : c.cache.lookup key with
    | none => simpa [getManyAux, hkey] using ih c h1 h2
    | some entry =>
      cases hexp : c.isExpired entry.timestamp now with
      | false => simpa [getManyAux, hkey, hexp] using ih c h1 h2
      | true =>
        have hkk : key ≠ k := by
          intro hkk
          subst hkk
          rw [h1] at hkey
          cases hkey
          simp [Cache.isExpired, not_lt.mpr h2] at hexp
        have h1' : ({ c with cache := eraseKey key c.cache } : Cache α).cache.lookup k =
            some e := by
          simpa [lookup_eraseKey_ne (Ne.symm hkk)] using h1
        simpa [getManyAux, hkey, hexp] using
          ih { c with cache := eraseKey key c.cache } h1' h2

/-- C10: no cache operation removes or alters a non-expired entry for a key
other than the one being written: with `k` holding the entry `e` whose age is
at most `expiry_seconds`, the sweep, a `get` of any key, a `get_many` of any
batch, and a `set` of a different key all leave `k` mapped to exactly `e`. -/
theorem C10_no_cross_key_effects (α : Type) (c : Cache α) (k k2 : String)
    (e : CacheEntry α) (v : α) (ks : List String) (now : Int)
    (hnd : (c.cache.map Prod.fst).Nodup)
    (hl : c.cache.lookup k = some e)
    (hfresh : now - e.timestamp ≤ c.expiry_seconds)
    (hne : k2 ≠ k) :
    (c.cleanup now).cache.lookup k = some e ∧
      (c.get k2 now).2.cache.lookup k = some e ∧
      (c.get k now).2.cache.lookup k = some e ∧
      (c.getMany ks now).2.cache.lookup k = some e ∧
      (c.set k2 v now).cache.lookup k = some e := by
  have hmc := maybeCleanup_preserves c now k e hnd hl hfresh
  refine ⟨?_, ?_, ?_, ?_, ?_⟩
  · unfold Cache.cleanup
    rw [lookup_filter_some hnd hl]
    simp [Cache.isExpired, not_lt.mpr hfresh]
  · by_cases hk2 : k2 = ""
    · unfold Cache.get
      rw [if_pos hk2]
      exact hl
    · unfold Cache.get
      rw [if_neg hk2]
      cases hlk2 : (c.maybeCleanup now).cache.lookup k2 with
      | none => simpa [hlk2] using hmc.1
      | some entry =>
        cases hexp2 : (c.maybeCleanup now).isExpired entry.timestamp now with
        | true =>
          simpa [hlk2, hexp2, lookup_eraseKey_ne (Ne.symm hne)] using hmc.1
        | false =>
          simpa [hlk2, hexp2] using hmc.1
  · by_cases hk : k = ""
    · unfold Cache.get
      rw [if_pos hk]
      exact hl
    · unfold Cache.get
      rw [if_neg hk]
      have hexp : (c.maybeCleanup now).isExpired e.timestamp now = false := by
        simp [Cache.isExpired, hmc.2, not_lt.mpr hfresh]
      simp [hmc.1, hexp]
  · unfold Cache.getMany
    exact (getManyAux_preserves now k e ks (c.maybeCleanup now) hmc.1
      (hmc.2 ▸ hfresh)).1
  · by_cases hk2 : k2 = ""
    · unfold Cache.set
      rw [if_pos hk2]
      exact hl
    · unfold Cache.set
      rw [if_neg hk2]
      simp [List.lookup, beq_eq_false_iff_ne.mpr (Ne.symm hne),
        lookup_eraseKey_ne (Ne.symm hne), hl]

/-- Witness for C10: a two-entry cache, frame checked for the fresh entry at
`"a"` across a sweep, reads of `"b"` and `"a"`, a batch read and a write to
`"b"`. -/
theorem C10_witness :
    ((⟨[("a", ⟨1, 0⟩), ("b", ⟨2, 5⟩)], 3600, 300, 0⟩ : Cache Nat).cleanup 10).cache.lookup
        "a" = some ⟨1, 0⟩ ∧
      ((⟨[("a", ⟨1, 0⟩), ("b", ⟨2, 5⟩)], 3600, 300, 0⟩ : Cache Nat).get "b"
          10).2.cache.lookup "a" = some ⟨1, 0⟩ ∧
      ((⟨[("a", ⟨1, 0⟩), ("b", ⟨2, 5⟩)], 3600, 300, 0⟩ : Cache Nat).get "a"
          10).2.cache.lookup "a" = some ⟨1, 0⟩ ∧
      ((⟨[("a", ⟨1, 0⟩), ("b", ⟨2, 5⟩)], 3600, 300, 0⟩ : Cache Nat).getMany
          ["b", "a", "zz"] 10).2.cache.lookup "a" = some ⟨1, 0⟩ ∧
      ((⟨[("a", ⟨1, 0⟩), ("b", ⟨2, 5⟩)], 3600, 300, 0⟩ : Cache Nat).set "b" 7
          10).cache.lookup "a" = some ⟨1, 0⟩ :=
  C10_no_cross_key_effects Nat ⟨[("a", ⟨1, 0⟩), ("b", ⟨2, 5⟩)], 3600, 300, 0⟩ "a" "b"
    ⟨1, 0⟩ 7 ["b", "a", "zz"] 10 (by decide) (by decide) (by decide) (by decide)

/-! ### ErrorTracker -/

theorem countOf_setCount_self (l : List (String × Nat)) (k : String) (n : Nat) :
    countOf (setCount l k n) k = n := by
  simp [countOf, setCount, List.lookup]

/-- A `track` call inside the reset interval: no reset, the kind's count
increments, the warning fires iff the new count exceeds the threshold. -/
theorem track_within (et : ErrorTracker) (kind : String) (t : Int)
    (hres : ¬(t - et.last_reset > et.reset_interval)) :
    et.track kind t =
      ({ et with
          error_counts :=
            setCount et.error_counts kind (countOf et.error_counts kind + 1) },
        decide (countOf et.error_counts kind + 1 > et.alert_threshold)) := by
  unfold ErrorTracker.track ErrorTracker.checkReset ErrorTracker.incrementCount
  rw [if_neg hres]

/-- A `track` call after the reset interval has elapsed: all counts are
cleared first, then the kind is recorded with count 1. -/
theorem track_reset (et : ErrorTracker) (kind : String) (t : Int)
    (hres : t - et.last_reset > et.reset_interval) :
    et.track kind t =
      ({ et with error_counts := [(kind, 1)], last_reset := t },
        decide (1 > et.alert_threshold)) := by
  unfold ErrorTracker.track ErrorTracker.checkReset ErrorTracker.incrementCount
  rw [if_pos hres]
  rfl

/-- Tracking one kind repeatedly inside the reset interval: starting from a
count of `c` and making exactly `alert_threshold + 1 - c` calls, the warning
flags are all false except on the final, threshold-crossing call. -/
theorem trackRun_warns (kind : String) (ts : List Int) : ∀ (et : ErrorTracker),
    (∀ t ∈ ts, t - et.last_reset ≤ et.reset_interval) →
    countOf et.error_counts kind + ts.length = et.alert_threshold + 1 →
    countOf et.error_counts kind ≤ et.alert_threshold →
    (et.trackRun kind ts).2 =
      List.replicate (et.alert_threshold - countOf et.error_counts kind) false ++
        [true] := by
  induction ts with
  | nil =>
    intro et _ hlen hle
    simp at hlen
    omega
  | cons t ts ih =>
    intro et hin hlen hle
    have hres : ¬(t - et.last_reset > et.reset_interval) := by
      have := hin t (List.mem_cons_self t ts)
      omega
    have htr := track_within et kind t hres
    by_cases hic : countOf et.error_counts kind = et.alert_threshold
    · have hts : ts = [] := by
        simp at hlen
        have : ts.length = 0 := by omega
        exact List.length_eq_zero.mp this
      subst hts
      have hflag : decide (countOf et.error_counts kind + 1 > et.alert_threshold) =
          true := by
        simp
        omega
      simp [ErrorTracker.trackRun, htr, hflag, hic]
    · have hlt : countOf et.error_counts kind < et.alert_threshold :=
        lt_of_le_of_ne hle hic
      have hflag : decide (countOf et.error_counts kind + 1 > et.alert_threshold) =
          false := by
        simp
        omega
      have hcnt' : countOf (setCount et.error_counts kind
          (countOf et.error_counts kind + 1)) kind =
          countOf et.error_counts kind + 1 :=
        countOf_setCount_self _ _ _
      have IH := ih ({ et with
          error_counts :=
            setCount et.error_counts kind (countOf et.error_counts kind + 1) })
        (fun t' ht' => hin t' (List.mem_cons_of_mem _ ht'))
        (by
          simp only [hcnt']
          simp at hlen
          omega)
        (by
          simp only [hcnt']
          omega)
      rw [hcnt'] at IH
      have hsplit : et.alert_threshold - countOf et.error_counts kind =
          (et.alert_threshold - (countOf et.error_counts kind + 1)) + 1 := by
        omega
      simp [ErrorTracker.trackRun, htr, hflag, IH, hsplit, List.replicate_succ]

/-- C8: with a fresh count for `kind`, tracking it `alert_threshold + 1` times
within one reset interval warns exactly once, on the crossing increment; and
a `track` call after more than `reset_interval` since the last reset clears
all counts first, so the kind restarts at count 1. -/
theorem C8_error_tracker (et : ErrorTracker) (kind : String) (ts : List Int)
    (t2 : Int)
    (h0 : countOf et.error_counts kind = 0)
    (hin : ∀ t ∈ ts, t - et.last_reset ≤ et.reset_interval)
    (hlen : ts.length = et.alert_threshold + 1)
    (hout : t2 - et.last_reset > et.reset_interval) :
    (et.trackRun kind ts).2 = List.replicate et.alert_threshold false ++ [true] ∧
      (et.track kind t2).1.error_counts = [(kind, 1)] ∧
      countOf (et.track kind t2).1.error_counts kind = 1 := by
  refine ⟨?_, ?_, ?_⟩
  · have h := trackRun_warns kind ts et hin (by omega) (by omega)
    simpa [h0] using h
  · rw [track_reset et kind t2 hout]
  · rw [track_reset et kind t2 hout]
    simp [countOf, List.lookup]

/-- Witness for C8: a fresh tracker (interval 3600, threshold 10), the same
kind tracked 11 times inside the interval, then once at time 4000. -/
theorem C8_witness :
    ((ErrorTracker.init 0 3600 10).trackRun "api" [1, 2, 3, 4, 5, 6, 7, 8, 9, 10, 11]).2 =
        List.replicate 10 false ++ [true] ∧
      ((ErrorTracker.init 0 3600 10).track "api" 4000).1.error_counts = [("api", 1)] ∧
      countOf ((ErrorTracker.init 0 3600 10).track "api" 4000).1.error_counts "api" =
        1 :=
  C8_error_tracker (ErrorTracker.init 0 3600 10) "api"
    [1, 2, 3, 4, 5, 6, 7, 8, 9, 10, 11] 4000 (by decide) (by decide) (by decide)
    (by decide)

/-! ### Polling-loop cooldown vs. worst-case backoff -/

/-- C5, counterexample: one mention-check operation can incur more backoff
than the loop's fixed 300-second error cooldown — a tweet fetch whose three
attempts all raise 429 sleeps 60+120+180 = 360 seconds before giving up. -/
theorem C5_counterexample :
    errorCooldown <
        (getTweetData Unit (fun _ => Except.error "HTTP 429 Too Many Requests")).2 ∧
      (getTweetData Unit (fun _ => Except.error "HTTP 429 Too Many Requests")).2 =
        360 := by
  constructor
  · decide
  · decide

/-- C5, amended: the loop does sleep a fixed cooldown (300s) on an exception,
and that cooldown bounds every single backoff sleep the operation performs —
the agent's `handle_rate_limit(0, max_retries, error)` call sleeps at most
180s, and each retry sleep of the tweet fetch (`60 * (attempt+1)`,
`attempt < 3`) is at most 180s — but it does not bound the operation's
cumulative worst-case backoff (360s for a persistently rate-limited tweet
fetch). -/
theorem C5_amended (rl : RateLimiter) (e : String) (m : Nat) (a : Nat)
    (ha : a < 3) :
    (rl.handleRateLimit 0 m (some e)).2.1 ≤ errorCooldown ∧
      60 * (a + 1) ≤ errorCooldown ∧
      errorCooldown <
        (getTweetData Unit (fun _ => Except.error "HTTP 429 Too Many Requests")).2 := by
  refine ⟨?_, by simp [errorCooldown]; omega, by decide⟩
  have h : (rl.handleRateLimit 0 m (some e)).2.1 = 0 ∨
      (rl.handleRateLimit 0 m (some e)).2.1 = min 180 rl.max_sleep := by
    unfold RateLimiter.handleRateLimit
    split
    · exact Or.inl rfl
    · split
      · exact Or.inl rfl
      · exact Or.inr rfl
  rcases h with h | h <;> rw [h]
  · exact Nat.zero_le _
  · exact le_trans (Nat.min_le_left _ _) (by decide)

/-- Witness for C5_amended at the Twitter limiter configuration and a
429-shaped error. -/
theorem C5_amended_witness :
    ((RateLimiter.init "twitter" 900 15 1 60 900).handleRateLimit 0 3
          (some "429")).2.1 ≤ errorCooldown ∧
      60 * (2 + 1) ≤ errorCooldown ∧
      errorCooldown <
        (getTweetData Unit (fun _ => Except.error "HTTP 429 Too Many Requests")).2 :=
  C5_amended (RateLimiter.init "twitter" 900 15 1 60 900) "429" 3 2 (by decide)

/-- C4, counterexample: with `window_seconds=10, max_requests=5, buffer=1`,
six `wait()` calls all made exactly at the window boundary (elapsed time
since the window start equal to `window_seconds`) never reset the window
(the reset test is strict), never block (the remaining time is 0, not
positive), and leave the count at 6, strictly above `max_requests = 5`. -/
theorem C4_counterexample :
    ((RateLimiter.init "twitter" 10 5 1 60 900).waitRun
        [10, 10, 10, 10, 10, 10]).2 = [0, 0, 0, 0, 0, 0] ∧
      ((RateLimiter.init "twitter" 10 5 1 60 900).waitRun
          [10, 10, 10, 10, 10, 10]).1.requests_count = 6 ∧
      ((6 : Int) > (RateLimiter.init "twitter" 10 5 1 60 900).max_requests) := by
  refine ⟨by decide, by decide, by decide⟩

end Bittensor
